import Mathlib

/-!
Shallow embedding of the excalicord recording pipeline.

Sources:
* `src/src/utils/webCodecsRecorder.ts` — the `WebCodecsRecorder` class
  (primary MP4 encoder): `addFrame`, `pause`, `resume`, `stop`, and the
  float→int16 audio sample conversion in the `ScriptProcessorNode` callback.
* `src/unnamed/part_001` — the session controller inside the React app:
  `confirmRecording` (target bitrate), `stopRecording` (output
  reconciliation), `attachCompositeDisplaySource` (source switching),
  `createCompositeAudioPipeline` / `attachCompositeSystemAudio` /
  `detachCompositeSystemAudio` / `cleanupCompositeAudioPipeline`
  (audio mix graph).

Machine floats that carry exact small integer arithmetic are modelled as `ℚ`;
counters are `Nat`; the int16 written into the `Int16Array` is `Int` with the
wrap of the typed-array store made explicit.
-/

/-! ## WebCodecsRecorder state (`src/src/utils/webCodecsRecorder.ts`) -/

/-- A video frame as submitted to `videoEncoder.encode`: its timestamp in
microseconds (`(adjustedFrame * 1_000_000) / frameRate`) and the `keyFrame`
flag.  Every encoded chunk is handed straight to `muxer.addVideoChunk` by the
encoder output callback, so this list is also the muxed video content. -/
structure Frame where
  timestamp : ℚ
  keyFrame : Bool
deriving DecidableEq, Repr

/-- An audio chunk as submitted to `audioEncoder.encode`: its running
timestamp in microseconds and its int16 samples. -/
structure AudioChunk where
  timestamp : ℚ
  samples : List Int
deriving DecidableEq, Repr

/-- The mutable fields of the `WebCodecsRecorder` class that the lifecycle
methods read and write, plus the trace of encode calls (`encoded`,
`audioChunks`), which is what ends up in the muxer. -/
structure RecorderState where
  frameRate : Nat
  warmupFrames : Nat
  frameCount : Nat
  isRecording : Bool
  isPaused : Bool
  hasVideoEncoder : Bool
  hasAudioEncoder : Bool
  hasMuxer : Bool
  encoded : List Frame
  audioTimestamp : ℚ
  audioChunks : List AudioChunk
deriving DecidableEq, Repr

/-- The state right after a successful `start()`: `frameCount = 0`,
`isRecording = true`, `isPaused = false`, encoders and muxer allocated,
`audioTimestamp = 0`, `warmupFrames = 5` (the field initializer). -/
def startedState (frameRate : Nat) (audio : Bool) : RecorderState :=
  { frameRate := frameRate
    warmupFrames := 5
    frameCount := 0
    isRecording := true
    isPaused := false
    hasVideoEncoder := true
    hasAudioEncoder := audio
    hasMuxer := true
    encoded := []
    audioTimestamp := 0
    audioChunks := [] }

/-- A started recorder with the warmup count generalized: the class fixes
`warmupFrames = 5`, so `startedState fr audio = startedStateW fr 5 audio`,
but the timing properties below hold for any warmup count. -/
def startedStateW (frameRate warmup : Nat) (audio : Bool) : RecorderState :=
  { startedState frameRate audio with warmupFrames := warmup }

/-- `WebCodecsRecorder.addFrame` (lines 252–278): early-returns unless
recording, unpaused, with a live video encoder; skips the first
`warmupFrames` submissions entirely (only `frameCount` advances); otherwise
encodes a frame with timestamp `(adjustedFrame * 1_000_000) / frameRate`
microseconds and `keyFrame` exactly when `adjustedFrame == 0 ||
adjustedFrame % (frameRate * 2) == 0`. -/
def addFrame (s : RecorderState) : RecorderState :=
  if !s.isRecording || s.isPaused || !s.hasVideoEncoder then s
  else if s.frameCount < s.warmupFrames then
    { s with frameCount := s.frameCount + 1 }
  else
    let adjustedFrame := s.frameCount - s.warmupFrames
    let timestamp : ℚ := ((adjustedFrame : ℚ) * 1000000) / (s.frameRate : ℚ)
    let keyFrame : Bool := adjustedFrame == 0 || adjustedFrame % (s.frameRate * 2) == 0
    { s with
      encoded := s.encoded ++ [{ timestamp := timestamp, keyFrame := keyFrame }]
      frameCount := s.frameCount + 1 }

/-- Iterate `addFrame` `n` times (the compositor tick loop submitting
`n` frames in order). -/
def addFrames (s : RecorderState) : Nat → RecorderState
  | 0 => s
  | n + 1 => addFrame (addFrames s n)

/-- `WebCodecsRecorder.pause` (lines 280–284): no-op unless recording and
not already paused. -/
def pause (s : RecorderState) : RecorderState :=
  if !s.isRecording || s.isPaused then s else { s with isPaused := true }

/-- `WebCodecsRecorder.resume` (lines 286–290): no-op unless recording and
currently paused. -/
def resume (s : RecorderState) : RecorderState :=
  if !s.isRecording || !s.isPaused then s else { s with isPaused := false }

/-! ## Float→Int16 conversion (`setupAudioEncoder`, lines 219–224)

```
const s = Math.max(-1, Math.min(1, inputData[i]));
int16Data[i] = s < 0 ? s * 0x8000 : s * 0x7FFF;
```
The store into an `Int16Array` applies ToInt16: truncation toward zero, then
reduction mod 2^16 into the signed range. -/

/-- `Math.max(-1, Math.min(1, x))`. -/
def clampSample (x : ℚ) : ℚ := max (-1) (min 1 x)

/-- `s < 0 ? s * 0x8000 : s * 0x7FFF` applied to the clamped sample. -/
def scaleSample (x : ℚ) : ℚ :=
  if clampSample x < 0 then clampSample x * 32768 else clampSample x * 32767

/-- Truncation toward zero, the integer-conversion step of ToInt16. -/
def ratTrunc (v : ℚ) : Int := if 0 ≤ v then ⌊v⌋ else ⌈v⌉

/-- The `Int16Array` store: truncate toward zero, then wrap modulo 2^16 into
`[-32768, 32767]`. -/
def toInt16 (v : ℚ) : Int := (ratTrunc v + 32768) % 65536 - 32768

/-- The complete float→int16 sample conversion of the audio callback. -/
def floatToInt16 (x : ℚ) : Int := toInt16 (scaleSample x)

/-- The `scriptNode.onaudioprocess` callback (lines 214–245): early-returns
unless recording, unpaused, with a live audio encoder; otherwise converts the
float samples, encodes one chunk stamped with the running `audioTimestamp`,
and advances `audioTimestamp` by `(length / sampleRate) * 1_000_000`
microseconds (sample rate 48000). -/
def audioProcess (s : RecorderState) (input : List ℚ) : RecorderState :=
  if !s.isRecording || s.isPaused || !s.hasAudioEncoder then s
  else
    { s with
      audioChunks := s.audioChunks ++
        [{ timestamp := s.audioTimestamp, samples := input.map floatToInt16 }]
      audioTimestamp := s.audioTimestamp + ((input.length : ℚ) / 48000) * 1000000 }

/-! ## `WebCodecsRecorder.stop` (lines 292–340) -/

/-- The two typed errors `stop()` can throw. -/
inductive StopError where
  | notRecording
  | muxerNotInitialized
deriving DecidableEq, Repr

/-- The finalized container content: exactly the video and audio chunks the
muxer accumulated. -/
structure ContainerBlob where
  video : List Frame
  audio : List AudioChunk
deriving DecidableEq, Repr

/-- `stop()`: throws `Error('Not recording')` when `isRecording` is false,
throws `Error('Muxer not initialized')` when the muxer is absent, and
otherwise finalizes the muxer and returns its accumulated content as a blob
— with no check that any frame or sample was ever encoded. -/
def stop (s : RecorderState) : Except StopError ContainerBlob :=
  if !s.isRecording then .error .notRecording
  else if !s.hasMuxer then .error .muxerNotInitialized
  else .ok { video := s.encoded, audio := s.audioChunks }

/-! ## Session controller (`src/unnamed/part_001`) -/

/-- `confirmRecording` line 1378 (identical in `src/src/App.tsx` line 811):
`Math.min(24_000_000, Math.max(10_000_000, Math.round((width * height * 30) / 5)))`.
`width * height * 30` is divisible by 5, so the rounding is exact. -/
def targetVideoBitrate (width height : Nat) : Nat :=
  min 24000000 (max 10000000 (width * height * 30 / 5))

/-- The three possible outcomes of output reconciliation in
`stopRecording`. -/
inductive OutputChoice where
  | primary
  | fallback
  | noOutput
deriving DecidableEq, Repr

/-- `stopRecording` lines 1698–1711: with `mp4Blob` available iff
`primaryAvailable`, the WebM `fallbackBlob` available iff
`fallbackAvailable`, and `prefersAudioFallback = recordAudio &&
!webCodecsHasAudio`:

```
if (mp4Blob && !(prefersAudioFallback && fallbackBlob)) { download mp4 }
else if (fallbackBlob) { download webm }
else { alert('Failed to save recording. Please try again.') }
```
-/
def reconcileOutput (primaryAvailable fallbackAvailable prefersAudioFallback : Bool) :
    OutputChoice :=
  if primaryAvailable && !(prefersAudioFallback && fallbackAvailable) then .primary
  else if fallbackAvailable then .fallback
  else .noOutput

/-! ## Source switching (`attachCompositeDisplaySource`, lines 1130–1233) -/

/-- The compositor's active visual input. -/
inductive CompositeVisualSource where
  | excalidraw
  | display
deriving DecidableEq, Repr

/-- The session state `attachCompositeDisplaySource` reads and writes:
`activeCompositeSourceRef`, `displayCaptureStreamRef` (stream identity),
the composite system-audio connection, `usedDisplaySourceRef`, and
`sourceSwitchCountRef`. -/
structure CompositeState where
  activeSource : CompositeVisualSource
  displayStream : Option Nat
  systemAttached : Bool
  usedDisplaySource : Bool
  sourceSwitchCount : Nat
deriving DecidableEq, Repr

/-- The possible results of the `getDisplayMedia` request: the API is
missing, the request throws (user denial or abort), or a stream is returned
with or without a live video track and a live audio track. -/
inductive DisplayMediaOutcome where
  | unsupported
  | requestFailed
  | captured (streamId : Nat) (hasLiveVideoTrack : Bool) (hasLiveAudioTrack : Bool)
deriving DecidableEq, Repr

/-- The operator audio configuration read from `settingsRef.current`. -/
structure SessionSettings where
  recordAudio : Bool
  recordSystemAudio : Bool
deriving DecidableEq, Repr

/-- `attachCompositeDisplaySource` (lines 1130–1233): all three failure
paths (API unsupported, request throws, no live video track in the returned
stream) return `false` before any session state is touched; only the
success path replaces the previous display capture, wires or detaches
system audio, and makes `display` the active source. `mixReady` stands for
"the composite audio context and destination exist"; `attachOk` for the
`createMediaStreamSource` call not throwing. -/
def attachCompositeDisplaySource (outcome : DisplayMediaOutcome)
    (cfg : SessionSettings) (mixReady attachOk : Bool)
    (st : CompositeState) : Bool × CompositeState :=
  match outcome with
  | .unsupported => (false, st)
  | .requestFailed => (false, st)
  | .captured sid hasVideo hasAudio =>
    if !hasVideo then (false, st)
    else
      let st1 : CompositeState :=
        { st with displayStream := none, systemAttached := false }
      let st2 : CompositeState := { st1 with displayStream := some sid }
      let st3 : CompositeState :=
        if cfg.recordSystemAudio && hasAudio then
          if mixReady && attachOk then { st2 with systemAttached := true }
          else { st2 with systemAttached := false }
        else { st2 with systemAttached := false }
      let st4 : CompositeState :=
        { st3 with
          activeSource := .display
          usedDisplaySource := true
          sourceSwitchCount :=
            if st.activeSource ≠ .display then st3.sourceSwitchCount + 1
            else st3.sourceSwitchCount }
      (true, st4)

/-! ## Audio mix graph (`part_001` lines 407–504) -/

/-- The node connections of the composite audio pipeline: how many
microphone sources and how many system-audio sources are currently
connected into the mix destination, and whether the context and
destination exist. -/
structure AudioGraph where
  micConnections : Nat
  systemConnections : Nat
  hasContext : Bool
  hasDestination : Bool
deriving DecidableEq, Repr

/-- The graph before any pipeline is created. -/
def emptyAudioGraph : AudioGraph :=
  { micConnections := 0, systemConnections := 0
    hasContext := false, hasDestination := false }

/-- `detachCompositeSystemAudio` (lines 407–413): disconnects and drops the
system source and gain nodes. -/
def detachSystemAudio (g : AudioGraph) : AudioGraph :=
  { g with systemConnections := 0 }

/-- `cleanupCompositeAudioPipeline` (lines 415–425): detaches system audio,
disconnects the mic nodes, drops the destination and its stream, and closes
the context. -/
def cleanupAudioPipeline (_ : AudioGraph) : AudioGraph := emptyAudioGraph

/-- `createCompositeAudioPipeline` (lines 427–475): returns early when
neither source is requested or `AudioContext` is missing; otherwise cleans
up any previous pipeline, allocates a context and destination, connects at
most one microphone source (when requested and a live mic track exists),
and tears everything down again if context creation throws or the
destination yields no track. -/
def createAudioPipeline
    (includeMic includeSystem ctxAvailable ctxOk micLive micOk mixedTrackOk : Bool)
    (g : AudioGraph) : AudioGraph :=
  if (!includeMic && !includeSystem) || !ctxAvailable then g
  else
    let g1 := cleanupAudioPipeline g
    if !ctxOk then cleanupAudioPipeline g1
    else
      let g2 : AudioGraph := { g1 with hasContext := true, hasDestination := true }
      if includeMic && micLive && !micOk then cleanupAudioPipeline g2
      else
        let g3 : AudioGraph :=
          if includeMic && micLive then
            { g2 with micConnections := g2.micConnections + 1 }
          else g2
        if !mixedTrackOk then cleanupAudioPipeline g3 else g3

/-- `attachCompositeSystemAudio` (lines 477–504): always detaches any prior
system connection first; then attaches exactly one new connection, but only
when a live track is supplied, system audio is enabled in settings, the
context and destination exist, and node creation does not throw. -/
def attachSystemAudio (trackLive recordSystemAudio attachOk : Bool)
    (g : AudioGraph) : AudioGraph :=
  let g1 := detachSystemAudio g
  if !trackLive || !recordSystemAudio then g1
  else if !(g1.hasContext && g1.hasDestination) then g1
  else if attachOk then { g1 with systemConnections := g1.systemConnections + 1 }
  else g1

/-- The operations that touch the audio mix graph's connections. -/
inductive AudioGraphOp where
  | create (includeMic includeSystem ctxAvailable ctxOk micLive micOk mixedTrackOk : Bool)
  | attachSystem (trackLive recordSystemAudio attachOk : Bool)
  | detachSystem
  | cleanup
deriving DecidableEq, Repr

/-- Interpret one audio-graph operation. -/
def audioGraphStep (g : AudioGraph) : AudioGraphOp → AudioGraph
  | .create a b c d e f k => createAudioPipeline a b c d e f k g
  | .attachSystem a b c => attachSystemAudio a b c g
  | .detachSystem => detachSystemAudio g
  | .cleanup => cleanupAudioPipeline g

/-- Run a whole history of audio-graph operations from the initial graph. -/
def runAudioGraph (ops : List AudioGraphOp) : AudioGraph :=
  ops.foldl audioGraphStep emptyAudioGraph

/-- The frame that `addFrame` submits for post-warmup index `k`:
timestamp `(k * 1_000_000) / frameRate` microseconds, keyframe exactly when
`k == 0 || k % (frameRate * 2) == 0`. -/
def mkFrame (fr k : Nat) : Frame :=
  { timestamp := ((k : ℚ) * 1000000) / (fr : ℚ)
    keyFrame := k == 0 || k % (fr * 2) == 0 }

/-- A recorder that was started (audio enabled) and then paused. -/
def pausedState : RecorderState :=
  { startedState 30 true with isPaused := true }

/-- A recorder that was started and has encoded one video frame. -/
def oneFrameState : RecorderState :=
  { startedState 30 false with
    encoded := [{ timestamp := 0, keyFrame := true }]
    frameCount := 6 }

/-! ## Theorems -/

/-- Full characterization of `n` successive `addFrame` submissions from a
freshly started recorder: the frame counter reaches `n` and the encoder
received exactly the post-warmup frames `mkFrame fr 0 … mkFrame fr (n-6)`. -/
theorem addFrames_startedStateW (fr w : Nat) (audio : Bool) (n : Nat) :
    addFrames (startedStateW fr w audio) n =
      { startedStateW fr w audio with
        frameCount := n
        encoded := (List.range (n - w)).map (mkFrame fr) } := by
  induction n with
  | zero => simp [addFrames, Nat.zero_sub, startedStateW, startedState]
  | succ n ih =>
    rw [addFrames, ih]
    by_cases h : n < w
    · have h5 : n - w = 0 := by omega
      have h6 : n + 1 - w = 0 := by omega
      simp [addFrame, startedStateW, startedState, h, h5, h6]
    · have h6 : n + 1 - w = (n - w) + 1 := by omega
      simp [addFrame, startedStateW, startedState, h, h6, List.range_succ, mkFrame]

/-- The warmup count of the actual class is 5. -/
theorem startedState_eq_W (fr : Nat) (audio : Bool) :
    startedState fr audio = startedStateW fr 5 audio := rfl

/-- `addFrames_startedStateW` specialized to the class's warmup count 5. -/
theorem addFrames_startedState (fr : Nat) (audio : Bool) (n : Nat) :
    addFrames (startedState fr audio) n =
      { startedState fr audio with
        frameCount := n
        encoded := (List.range (n - 5)).map (mkFrame fr) } := by
  rw [startedState_eq_W, addFrames_startedStateW]

/-- C2: for every `(width, height)` pair the computed target video bitrate
equals the clamp of `width * height * 30 / 5` into
`[10_000_000, 24_000_000]`, and therefore always lies in that interval. -/
theorem targetVideoBitrate_clamped (width height : Nat) :
    targetVideoBitrate width height
      = min 24000000 (max 10000000 (width * height * 30 / 5)) ∧
    10000000 ≤ targetVideoBitrate width height ∧
    targetVideoBitrate width height ≤ 24000000 := by
  refine ⟨rfl, ?_, ?_⟩ <;> unfold targetVideoBitrate <;> omega

/-- C1: output reconciliation at stop is a pure function of the three
booleans; the primary MP4 is chosen iff it is available and not overridden
by a required-audio fallback, the WebM fallback is chosen iff it is
available and either the primary is absent or audio forces the fallback,
and a terminal failure is reported iff neither output exists. -/
theorem reconcileOutput_policy (p f a : Bool) :
    (reconcileOutput p f a = .primary ↔ p = true ∧ ¬(a = true ∧ f = true)) ∧
    (reconcileOutput p f a = .fallback ↔ f = true ∧ (p = false ∨ a = true)) ∧
    (reconcileOutput p f a = .noOutput ↔ p = false ∧ f = false) := by
  cases p <;> cases f <;> cases a <;> decide

/-- C3 counterexample: after the first five `addFrame` submissions from a
freshly started recorder, the video encoder has received no frame at all —
the encode-call trace is empty while the frame counter reached 5 — so the
warmup frames are not "fed to the video encoder for warmup"; they are
dropped before ever reaching it. -/
theorem warmup_not_fed_counterexample :
    (addFrames (startedState 30 false) 5).encoded = [] ∧
    (addFrames (startedState 30 false) 5).frameCount = 5 := by
  rw [addFrames_startedState]; exact ⟨rfl, rfl⟩

/-- C3 (amended): the first `warmupFrames = 5` frames submitted after start
are skipped entirely — they are not submitted to the video encoder, hence
not muxed — only the frame counter advances, and no timestamp is produced
or advanced for them. -/
theorem warmup_frames_skipped (fr : Nat) (audio : Bool) (n : Nat) (hn : n ≤ 5) :
    (startedState fr audio).warmupFrames = 5 ∧
    (addFrames (startedState fr audio) n).encoded = [] ∧
    (addFrames (startedState fr audio) n).frameCount = n := by
  rw [addFrames_startedState]
  have h0 : n - 5 = 0 := by omega
  exact ⟨rfl, by rw [h0]; rfl, rfl⟩

/-- Witness for C3 at `fr = 30`, `n = 5`. -/
theorem warmup_frames_skipped_witness :
    (5 : Nat) ≤ 5 ∧
    ((startedState 30 false).warmupFrames = 5 ∧
     (addFrames (startedState 30 false) 5).encoded = [] ∧
     (addFrames (startedState 30 false) 5).frameCount = 5) :=
  ⟨by decide, warmup_frames_skipped 30 false 5 (by decide)⟩

/-- C4: for any number `n` of submitted frames, the muxed video frames are
exactly the post-warmup ones and the `j`-th of them carries timestamp
`j * 1_000_000 / frameRate` microseconds (`j = frameIndex − warmupFrames`);
the first muxed frame's timestamp is 0 whenever any frame is muxed at all,
and the timestamps are strictly increasing in encode order. -/
theorem muxed_timestamps (fr w : Nat) (audio : Bool) (n : Nat) (hfr : 0 < fr) :
    (startedState fr audio = startedStateW fr 5 audio) ∧
    ((addFrames (startedStateW fr w audio) n).encoded.map Frame.timestamp
      = (List.range (n - w)).map (fun k : Nat => ((k : ℚ) * 1000000) / (fr : ℚ))) ∧
    (w < n →
      ((addFrames (startedStateW fr w audio) n).encoded.map Frame.timestamp).head? = some 0) ∧
    ((addFrames (startedStateW fr w audio) n).encoded.map Frame.timestamp).Pairwise
      (fun a b => a < b) := by
  rw [addFrames_startedStateW]
  have hfrQ : (0 : ℚ) < (fr : ℚ) := by exact_mod_cast hfr
  have hmap : ((List.range (n - w)).map (mkFrame fr)).map Frame.timestamp
      = (List.range (n - w)).map (fun k : Nat => ((k : ℚ) * 1000000) / (fr : ℚ)) := by
    rw [List.map_map]; rfl
  refine ⟨startedState_eq_W fr audio, hmap, ?_, ?_⟩
  · intro hn
    obtain ⟨m, hm⟩ : ∃ m, n - w = m + 1 := ⟨n - w - 1, by omega⟩
    rw [hmap, hm, List.range_succ_eq_map]
    simp
  · rw [hmap]
    refine (List.pairwise_lt_range _).map _ ?_
    intro a b hab
    rw [div_lt_div_iff_of_pos_right hfrQ]
    have hq : (a : ℚ) < (b : ℚ) := by exact_mod_cast hab
    nlinarith

/-- Witness for C4 at `fr = 30`, `w = 5`, `n = 7`. -/
theorem muxed_timestamps_witness :
    (startedState 30 false = startedStateW 30 5 false) ∧
    ((addFrames (startedStateW 30 5 false) 7).encoded.map Frame.timestamp
      = (List.range (7 - 5)).map (fun k : Nat => ((k : ℚ) * 1000000) / ((30 : Nat) : ℚ))) ∧
    (5 < 7 →
      ((addFrames (startedStateW 30 5 false) 7).encoded.map Frame.timestamp).head? = some 0) ∧
    ((addFrames (startedStateW 30 5 false) 7).encoded.map Frame.timestamp).Pairwise
      (fun a b => a < b) :=
  muxed_timestamps 30 5 false 7 (by decide)

/-- C5: a post-warmup frame at index `k` is submitted with the keyframe flag
set iff `k = 0` or `k` is a multiple of `2 × frameRate`; no other frame is
marked as a keyframe. -/
theorem keyframe_iff (fr : Nat) (audio : Bool) (n k : Nat) (kf : Bool)
    (hget : ((addFrames (startedState fr audio) n).encoded.map Frame.keyFrame)[k]?
      = some kf) :
    kf = true ↔ (k = 0 ∨ k % (2 * fr) = 0) := by
  rw [addFrames_startedState] at hget
  by_cases hk : k < n - 5
  · rw [List.map_map, List.getElem?_map, List.getElem?_range hk] at hget
    simp only [Option.map_some', Option.some.injEq] at hget
    have hkf : kf = (k == 0 || k % (fr * 2) == 0) := hget.symm
    rw [hkf, Nat.mul_comm fr 2]
    simp [Bool.or_eq_true]
  · exfalso
    have hlen : (((List.range (n - 5)).map (mkFrame fr)).map Frame.keyFrame).length ≤ k := by
      simpa using Nat.le_of_not_lt hk
    rw [List.getElem?_eq_none hlen] at hget
    exact Option.noConfusion hget

/-- Witness for C5 at `fr = 30`, `n = 7`, `k = 1` (not a keyframe). -/
theorem keyframe_iff_witness :
    ((addFrames (startedState 30 false) 7).encoded.map Frame.keyFrame)[1]? = some false ∧
    (false = true ↔ ((1 : Nat) = 0 ∨ 1 % (2 * 30) = 0)) :=
  ⟨by rw [addFrames_startedState]; rfl,
   keyframe_iff 30 false 7 1 false (by rw [addFrames_startedState]; rfl)⟩

/-- C6: `pause` is idempotent — a second consecutive `pause()` leaves the
state exactly as one call does — and while paused both `addFrame` and the
audio callback leave the recorder state (in particular the encode traces
that form the final output) completely unchanged: paused input is dropped,
not buffered. -/
theorem pause_idempotent_paused_drops (s : RecorderState) (input : List ℚ) :
    pause (pause s) = pause s ∧
    (s.isPaused = true → addFrame s = s ∧ audioProcess s input = s) := by
  constructor
  · by_cases h1 : s.isRecording
    · by_cases h2 : s.isPaused
      · simp [pause, h1, h2]
      · simp [pause, h1, h2]
    · simp [pause, h1]
  · intro hp
    exact ⟨by simp [addFrame, hp], by simp [audioProcess, hp]⟩

/-- Witness for C6 at a concrete paused recorder. -/
theorem pause_idempotent_paused_drops_witness :
    pause (pause pausedState) = pause pausedState ∧
    addFrame pausedState = pausedState ∧
    audioProcess pausedState [1/2] = pausedState :=
  ⟨(pause_idempotent_paused_drops pausedState [1/2]).1,
   ((pause_idempotent_paused_drops pausedState [1/2]).2 rfl).1,
   ((pause_idempotent_paused_drops pausedState [1/2]).2 rfl).2⟩

/-- C9 counterexample: a recorder that started successfully but encoded no
frame and no audio sample — zero usable data — still returns `ok` with an
empty container from `stop()`, not a typed error. -/
theorem stop_empty_ok_counterexample :
    stop (startedState 30 false) = Except.ok { video := [], audio := [] } ∧
    (startedState 30 false).encoded = [] ∧
    (startedState 30 false).audioChunks = [] := by
  exact ⟨rfl, rfl, rfl⟩

/-- C9 (amended): `stop()` fails with the typed error `Not recording`
exactly when the recorder is not currently recording (it never started or
was already stopped), with `Muxer not initialized` exactly when recording
but the muxer is absent; in every other case — even when no frame or sample
was ever encoded — it finalizes the muxer and returns its accumulated
content as the blob. -/
theorem stop_typed_errors (s : RecorderState) :
    (stop s = Except.error StopError.notRecording ↔ s.isRecording = false) ∧
    (stop s = Except.error StopError.muxerNotInitialized ↔
      s.isRecording = true ∧ s.hasMuxer = false) ∧
    (s.isRecording = true → s.hasMuxer = true →
      stop s = Except.ok { video := s.encoded, audio := s.audioChunks }) := by
  by_cases h1 : s.isRecording <;> by_cases h2 : s.hasMuxer <;>
    simp [stop, h1, h2]

/-- Witness for C9 at a started recorder with one encoded frame. -/
theorem stop_typed_errors_witness :
    stop oneFrameState
      = Except.ok { video := [{ timestamp := 0, keyFrame := true }], audio := [] } :=
  (stop_typed_errors oneFrameState).2.2 rfl rfl

/-- Helper: one audio-graph operation preserves the at-most-one-connection
invariant. -/
theorem audioGraphStep_inv (g : AudioGraph)
    (h : g.micConnections ≤ 1 ∧ g.systemConnections ≤ 1) (op : AudioGraphOp) :
    (audioGraphStep g op).micConnections ≤ 1 ∧
    (audioGraphStep g op).systemConnections ≤ 1 := by
  cases op <;>
    simp only [audioGraphStep, createAudioPipeline, attachSystemAudio,
      detachSystemAudio, cleanupAudioPipeline, emptyAudioGraph] <;>
    first
      | (split_ifs <;> simp_all)
      | simp_all

/-- C8: from the initial graph, any history of create / attach-system /
detach-system / cleanup operations leaves at most one microphone connection
and at most one system-audio connection into the mix destination; moreover
a system-track attach on an arbitrary graph always leaves at most one
system connection (it detaches any prior one first) and never touches the
microphone connection. -/
theorem audioGraph_single_connections (ops : List AudioGraphOp)
    (g : AudioGraph) (a b c : Bool) :
    ((runAudioGraph ops).micConnections ≤ 1 ∧
     (runAudioGraph ops).systemConnections ≤ 1) ∧
    (attachSystemAudio a b c g).systemConnections ≤ 1 ∧
    (attachSystemAudio a b c g).micConnections = g.micConnections := by
  refine ⟨?_, ?_, ?_⟩
  · have key : ∀ (l : List AudioGraphOp) (g0 : AudioGraph),
        g0.micConnections ≤ 1 ∧ g0.systemConnections ≤ 1 →
        (l.foldl audioGraphStep g0).micConnections ≤ 1 ∧
        (l.foldl audioGraphStep g0).systemConnections ≤ 1 := by
      intro l
      induction l with
      | nil => intro g0 hg; exact hg
      | cons op rest ih =>
        intro g0 hg
        exact ih _ (audioGraphStep_inv g0 hg op)
    exact key ops emptyAudioGraph (by decide)
  · simp only [attachSystemAudio, detachSystemAudio]
    split_ifs <;> simp
  · simp only [attachSystemAudio, detachSystemAudio]
    split_ifs <;> simp

/-- C7: whenever the switch to display capture fails — the API is missing,
the capture request throws, or the returned stream has no live video track —
the whole session state, including the active visual source, is exactly what
it was before the call. -/
theorem displaySwitch_failure_atomic (outcome : DisplayMediaOutcome)
    (cfg : SessionSettings) (mixReady attachOk : Bool) (st : CompositeState)
    (hfail : (attachCompositeDisplaySource outcome cfg mixReady attachOk st).1 = false) :
    (attachCompositeDisplaySource outcome cfg mixReady attachOk st).2 = st := by
  cases outcome with
  | unsupported => rfl
  | requestFailed => rfl
  | captured sid hasVideo hasAudio =>
    cases hasVideo with
    | false => rfl
    | true => simp [attachCompositeDisplaySource] at hfail

/-- Witness for C7: a denied capture request leaves a concrete state
untouched. -/
theorem displaySwitch_failure_atomic_witness :
    (attachCompositeDisplaySource .requestFailed
        { recordAudio := true, recordSystemAudio := true } true true
        { activeSource := .excalidraw, displayStream := none,
          systemAttached := false, usedDisplaySource := false,
          sourceSwitchCount := 0 }).1 = false ∧
    (attachCompositeDisplaySource .requestFailed
        { recordAudio := true, recordSystemAudio := true } true true
        { activeSource := .excalidraw, displayStream := none,
          systemAttached := false, usedDisplaySource := false,
          sourceSwitchCount := 0 }).2
      = { activeSource := .excalidraw, displayStream := none,
          systemAttached := false, usedDisplaySource := false,
          sourceSwitchCount := 0 } :=
  ⟨by decide, displaySwitch_failure_atomic _ _ _ _ _ (by decide)⟩

/-- C10: the float→int16 conversion of the audio callback equals plain
truncation of the clamp-then-scale value — the mod-2^16 wrap of the
`Int16Array` store is the identity here — and the produced value always
lies in the signed 16-bit range `[-32768, 32767]`. -/
theorem floatToInt16_range (x : ℚ) :
    floatToInt16 x = ratTrunc (scaleSample x) ∧
    -32768 ≤ floatToInt16 x ∧ floatToInt16 x ≤ 32767 := by
  have hs1 : -1 ≤ clampSample x := le_max_left _ _
  have hs2 : clampSample x ≤ 1 := max_le (by norm_num) (min_le_left _ _)
  have hlow : (-32768 : ℚ) ≤ scaleSample x := by
    unfold scaleSample
    split_ifs with h
    · nlinarith
    · nlinarith [le_of_not_lt h]
  have hhigh : scaleSample x ≤ 32767 := by
    unfold scaleSample
    split_ifs with h
    · nlinarith
    · nlinarith [le_of_not_lt h]
  have htl : -32768 ≤ ratTrunc (scaleSample x) := by
    unfold ratTrunc
    split_ifs with h
    · have h0 : (0 : ℤ) ≤ ⌊scaleSample x⌋ := Int.floor_nonneg.mpr h
      omega
    · have hcast : ((-32768 : ℤ) : ℚ) ≤ scaleSample x := by exact_mod_cast hlow
      calc (-32768 : ℤ) = ⌈((-32768 : ℤ) : ℚ)⌉ := (Int.ceil_intCast _).symm
        _ ≤ ⌈scaleSample x⌉ := Int.ceil_mono hcast
  have htu : ratTrunc (scaleSample x) ≤ 32767 := by
    unfold ratTrunc
    split_ifs with h
    · calc ⌊scaleSample x⌋ ≤ ⌊(32767 : ℚ)⌋ := Int.floor_mono hhigh
        _ = 32767 := by norm_num
    · have hc : ⌈scaleSample x⌉ ≤ 0 := by
        rw [Int.ceil_le]
        exact_mod_cast le_of_lt (lt_of_not_ge h)
      omega
  have hw : toInt16 (scaleSample x) = ratTrunc (scaleSample x) := by
    unfold toInt16
    rw [Int.emod_eq_of_lt (by omega) (by omega)]
    omega
  refine ⟨hw, ?_, ?_⟩ <;> unfold floatToInt16 <;> omega
